import Mathlib

/-!
Shallow embedding of `src/volkscv/metrics/classification/base.py`:
the abstract `BaseMetric` class for online classification metrics,
its static validation helpers, and its `__call__` lifecycle wrapper.

Numpy arrays are modelled as lists of rows of rationals, tagged with the
Python runtime type of the container (the `_check_type` helper compares
runtime types with `type(x) == np.ndarray`, so the tag matters).
Assertion failures and indexing errors become `Except` error values.
-/

namespace Volkscv

/-- A fragment of the Python runtime type universe relevant to the checks:
`numpy.ndarray` itself, `numpy.matrix` (a proper subclass of `ndarray`),
plain Python lists, and anything else. -/
inductive PyType where
  | ndarray
  | npMatrix
  | pyList
  | other
deriving DecidableEq, Repr

/-- Python `isinstance(x, np.ndarray)`: true for `ndarray` and for its
subclasses such as `numpy.matrix`. -/
def PyType.isSubclassOfNdarray : PyType → Bool
  | .ndarray => true
  | .npMatrix => true
  | _ => false

/-- A prediction batch: a 2-D numeric array of shape
(batch_size, num_categories), tagged with its runtime container type.
`rows` lists the rows, so `rows.length` is `pred.shape[0]`. -/
structure Pred where
  ty : PyType
  rows : List (List ℚ)
deriving DecidableEq, Repr

/-- `pred.shape[0]`: the leading (batch) dimension. -/
def Pred.shape0 (p : Pred) : ℕ := p.rows.length

/-- The total number of elements of the array (`pred.size` in numpy). -/
def Pred.numel (p : Pred) : ℕ := (p.rows.map List.length).sum

/-- A target batch: a 1-D array of class indices, tagged with its runtime
container type. `labels.length` is `target.shape[0]`. -/
structure Target where
  ty : PyType
  labels : List ℤ
deriving DecidableEq, Repr

/-- `target.shape[0]`: the leading (batch) dimension. -/
def Target.shape0 (t : Target) : ℕ := t.labels.length

/-- The distinct failure conditions the validation helpers can signal.
The four assertion messages in the source distinguish the first four;
`indexError` models a Python `IndexError` from an out-of-bounds access. -/
inductive MetricError where
  | typeMismatch
  | shapeMismatch
  | rangeViolation
  | sumViolation
  | indexError
deriving DecidableEq, Repr

namespace BaseMetric

/-- `BaseMetric._check_match`: asserts `pred.shape[0] == target.shape[0]`,
failing with the "pred and target don't match" assertion otherwise. -/
def _check_match (pred : Pred) (target : Target) : Except MetricError Unit :=
  if pred.shape0 = target.shape0 then .ok () else .error .shapeMismatch

/-- `BaseMetric._check_type`: asserts
`type(pred) == np.ndarray and type(target) == np.ndarray`
(strict runtime-type equality, not `isinstance`). -/
def _check_type (pred : Pred) (target : Target) : Except MetricError Unit :=
  if pred.ty = PyType.ndarray ∧ target.ty = PyType.ndarray then .ok ()
  else .error .typeMismatch

/-- `np.all(p(x) for every element x of pred)`: elementwise predicate over
the whole 2-D array, true when every element of every row satisfies it
(vacuously true on an empty array). -/
def np_all (pred : Pred) (p : ℚ → Bool) : Bool :=
  pred.rows.all (fun row => row.all p)

/-- `BaseMetric._check_pred_range`: asserts
`np.all(0 <= pred) and np.all(pred <= 1)`. -/
def _check_pred_range (pred : Pred) : Except MetricError Unit :=
  if np_all pred (fun x => decide (0 ≤ x)) && np_all pred (fun x => decide (x ≤ 1))
  then .ok () else .error .rangeViolation

/-- `BaseMetric._check_pred_sum`: asserts `pred[0].sum() <= 1`.
`pred[0]` raises `IndexError` when the leading dimension is 0; otherwise
only the first row's sum is tested. -/
def _check_pred_sum (pred : Pred) : Except MetricError Unit :=
  match pred.rows with
  | [] => .error .indexError
  | row :: _ => if row.sum ≤ 1 then .ok () else .error .sumViolation

/-- The body of the abstract `BaseMetric.compute`: it runs `_check_type`
then `_check_match` and nothing else, and leaves the instance state `s`
untouched (the derivation of an actual metric value is variant-specific
and absent at this layer). Modelled with explicit state passing. -/
def compute (σ : Type) (s : σ) (pred : Pred) (target : Target) :
    Except MetricError (Unit × σ) :=
  match _check_type pred target with
  | .error e => .error e
  | .ok _ =>
    match _check_match pred target with
    | .error e => .error e
    | .ok _ => .ok ((), s)

end BaseMetric

/-- A concrete metric variant: a subclass of `BaseMetric` that implements
the abstract operations. Mutation of `self` is modelled by explicit state
passing over the variant's state type `σ`; `V` is its value type.
`reset` is the default state that `reset()` (re)installs ("Reset variables
to default settings"), i.e. the Fresh state. -/
structure Variant (σ V : Type) where
  reset : σ
  compute : σ → Pred → Target → Except MetricError (V × σ)
  update : σ → ℕ → σ
  accumulate : σ → V

/-- `BaseMetric.__init__`: construction calls `self.reset()` once, so a
fresh instance carries the reset state. -/
def Variant.construct {σ V : Type} (m : Variant σ V) : σ := m.reset

/-- A `reset()` call on an instance currently in state `s`: reinstalls the
default settings, discarding `s`. -/
def Variant.doReset {σ V : Type} (m : Variant σ V) (_s : σ) : σ := m.reset

/-- `BaseMetric.__call__`: run `self.compute(pred, target)` (an assertion
failure there propagates to the caller), then `self.update()` with its
default argument `n = 1`, then return the value `compute` produced. -/
def Variant.call {σ V : Type} (m : Variant σ V) (s : σ) (pred : Pred)
    (target : Target) : Except MetricError (V × σ) :=
  match m.compute s pred target with
  | .error e => .error e
  | .ok (v, s1) => .ok (v, m.update s1 1)

/-- A minimal concrete variant used to exercise the abstract layer: its
state counts updates, and `compute` performs exactly the `BaseMetric`
checks before reporting the batch size. -/
def countVariant : Variant ℕ ℕ where
  reset := 0
  compute := fun s pred target => do
    let _ ← BaseMetric._check_type pred target
    let _ ← BaseMetric._check_match pred target
    return (pred.shape0, s)
  update := fun s n => s + n
  accumulate := fun s => s

/-- C1: `_check_pred_sum` fails with `SumViolation` iff the first row of
`pred` sums above 1; whenever the first row sums to at most 1 it succeeds,
even if later rows sum above 1; and the result depends only on the first
row: rows other than the first (and the container type) are never examined. -/
theorem check_pred_sum_first_row_only (ty ty' : PyType) (row : List ℚ)
    (rest rest' : List (List ℚ)) :
    (BaseMetric._check_pred_sum ⟨ty, row :: rest⟩ = .error .sumViolation ↔ 1 < row.sum)
    ∧ (row.sum ≤ 1 → BaseMetric._check_pred_sum ⟨ty, row :: rest⟩ = .ok ())
    ∧ BaseMetric._check_pred_sum ⟨ty, row :: rest⟩
        = BaseMetric._check_pred_sum ⟨ty', row :: rest'⟩ := by
  unfold BaseMetric._check_pred_sum
  by_cases h : row.sum ≤ 1 <;> simp [h]
  exact lt_of_not_le h

/-- C1 witness: with first row `[0.2, 0.3]` (sum 0.5 ≤ 1) and a second row
`[0.9, 0.9]` summing to 1.8 > 1, `_check_pred_sum` succeeds. -/
theorem check_pred_sum_first_row_only_witness :
    ([1/5, 3/10] : List ℚ).sum ≤ 1
    ∧ BaseMetric._check_pred_sum ⟨.ndarray, [[1/5, 3/10], [9/10, 9/10]]⟩ = .ok () := by
  have h : ([1/5, 3/10] : List ℚ).sum ≤ 1 := by
    norm_num [List.sum_cons, List.sum_nil]
  exact ⟨h, (check_pred_sum_first_row_only .ndarray .ndarray [1/5, 3/10]
    [[9/10, 9/10]] []).2.1 h⟩

/-- C4: `_check_type` fails with `TypeMismatch` iff at least one of the two
arguments has a runtime type other than `numpy.ndarray`; when both are
`ndarray` it succeeds. -/
theorem check_type_iff (pred : Pred) (target : Target) :
    (BaseMetric._check_type pred target = .error .typeMismatch
      ↔ (pred.ty ≠ PyType.ndarray ∨ target.ty ≠ PyType.ndarray))
    ∧ (pred.ty = PyType.ndarray → target.ty = PyType.ndarray →
        BaseMetric._check_type pred target = .ok ()) := by
  unfold BaseMetric._check_type
  by_cases h : pred.ty = PyType.ndarray ∧ target.ty = PyType.ndarray
  · simp only [h, if_true]
    exact ⟨by simp [h.1, h.2], fun _ _ => rfl⟩
  · simp only [h, if_false]
    rcases not_and_or.mp h with h' | h'
    · exact ⟨iff_of_true trivial (Or.inl h'), fun h1 _ => absurd h1 h'⟩
    · exact ⟨iff_of_true trivial (Or.inr h'), fun _ h2 => absurd h2 h'⟩

/-- C4 witness: a pair of `ndarray`s passes `_check_type`, and a plain
Python list in the `pred` position fails it. -/
theorem check_type_iff_witness :
    BaseMetric._check_type ⟨.ndarray, [[1/2]]⟩ ⟨.ndarray, [0]⟩ = .ok ()
    ∧ BaseMetric._check_type ⟨.pyList, [[1/2]]⟩ ⟨.ndarray, [0]⟩
        = .error .typeMismatch := by
  constructor
  · exact (check_type_iff ⟨.ndarray, [[1/2]]⟩ ⟨.ndarray, [0]⟩).2 rfl rfl
  · exact (check_type_iff ⟨.pyList, [[1/2]]⟩ ⟨.ndarray, [0]⟩).1.mpr
      (Or.inl (by decide))

/-- C5: `_check_match` fails with `ShapeMismatch` iff the leading dimensions
of `pred` and `target` differ; when they are equal it succeeds. -/
theorem check_match_iff (pred : Pred) (target : Target) :
    (BaseMetric._check_match pred target = .error .shapeMismatch
      ↔ pred.shape0 ≠ target.shape0)
    ∧ (pred.shape0 = target.shape0 →
        BaseMetric._check_match pred target = .ok ()) := by
  unfold BaseMetric._check_match
  by_cases h : pred.shape0 = target.shape0 <;> simp [h]

/-- C5 witness: a (2, 3) `pred` against a (3,) `target` fails `_check_match`,
and a (1, 2) `pred` against a (1,) `target` passes it. -/
theorem check_match_iff_witness :
    BaseMetric._check_match ⟨.ndarray, [[0, 0, 0], [0, 0, 0]]⟩ ⟨.ndarray, [0, 1, 2]⟩
        = .error .shapeMismatch
    ∧ BaseMetric._check_match ⟨.ndarray, [[7/10, 3/10]]⟩ ⟨.ndarray, [0]⟩ = .ok () := by
  constructor
  · exact (check_match_iff ⟨.ndarray, [[0, 0, 0], [0, 0, 0]]⟩
      ⟨.ndarray, [0, 1, 2]⟩).1.mpr (by decide)
  · exact (check_match_iff ⟨.ndarray, [[7/10, 3/10]]⟩ ⟨.ndarray, [0]⟩).2 rfl

/-- C6: `_check_pred_range` fails with `RangeViolation` iff some element of
`pred` lies outside the closed interval [0, 1]; when every element lies in
[0, 1] it succeeds. -/
theorem check_pred_range_iff (pred : Pred) :
    (BaseMetric._check_pred_range pred = .error .rangeViolation
      ↔ ∃ row ∈ pred.rows, ∃ x ∈ row, x < 0 ∨ 1 < x)
    ∧ ((∀ row ∈ pred.rows, ∀ x ∈ row, 0 ≤ x ∧ x ≤ 1) →
        BaseMetric._check_pred_range pred = .ok ()) := by
  unfold BaseMetric._check_pred_range BaseMetric.np_all
  by_cases h : (pred.rows.all fun row => row.all fun x => decide (0 ≤ x))
      && (pred.rows.all fun row => row.all fun x => decide (x ≤ 1))
  · simp only [h, if_true]
    simp only [Bool.and_eq_true, List.all_eq_true, decide_eq_true_eq] at h
    constructor
    · simp only [reduceCtorEq, false_iff]
      rintro ⟨row, hrow, x, hx, hbad⟩
      rcases hbad with hlt | hgt
      · exact absurd (h.1 row hrow x hx) (not_le.mpr hlt)
      · exact absurd (h.2 row hrow x hx) (not_le.mpr hgt)
    · intro _; trivial
  · simp only [h, if_false]
    simp only [Bool.and_eq_true, List.all_eq_true, decide_eq_true_eq] at h
    have hex : ∃ row ∈ pred.rows, ∃ x ∈ row, x < 0 ∨ 1 < x := by
      by_contra hcon
      push_neg at hcon
      exact h ⟨fun row hrow x hx => (hcon row hrow x hx).1,
        fun row hrow x hx => (hcon row hrow x hx).2⟩
    refine ⟨iff_of_true rfl hex, fun hall => ?_⟩
    rcases hex with ⟨row, hrow, x, hx, hbad⟩
    rcases hbad with hlt | hgt
    · exact absurd (hall row hrow x hx).1 (not_le.mpr hlt)
    · exact absurd (hall row hrow x hx).2 (not_le.mpr hgt)

/-- C6 witness: `[[1.2, -0.2]]` fails `_check_pred_range` (1.2 > 1), and
`[[0.7, 0.3]]` passes it. -/
theorem check_pred_range_iff_witness :
    BaseMetric._check_pred_range ⟨.ndarray, [[6/5, -1/5]]⟩ = .error .rangeViolation
    ∧ BaseMetric._check_pred_range ⟨.ndarray, [[7/10, 3/10]]⟩ = .ok () := by
  constructor
  · exact (check_pred_range_iff ⟨.ndarray, [[6/5, -1/5]]⟩).1.mpr
      ⟨[6/5, -1/5], by simp, 6/5, by simp, Or.inr (by norm_num)⟩
  · refine (check_pred_range_iff ⟨.ndarray, [[7/10, 3/10]]⟩).2 ?_
    intro row hrow x hx
    simp only [List.mem_singleton] at hrow
    subst hrow
    simp only [List.mem_cons, List.not_mem_nil, or_false] at hx
    rcases hx with hx | hx <;> subst hx <;> constructor <;> norm_num

/-- C8: `_check_type` compares runtime types with strict equality rather
than `isinstance`: any argument whose type is a proper subclass of
`numpy.ndarray` (such as `numpy.matrix`) is rejected with `TypeMismatch`
even though it is a numeric array. -/
theorem check_type_rejects_subclass (pred : Pred) (target : Target)
    (_h1 : pred.ty.isSubclassOfNdarray = true) (h2 : pred.ty ≠ PyType.ndarray) :
    BaseMetric._check_type pred target = .error .typeMismatch := by
  unfold BaseMetric._check_type
  simp [h2]

/-- C8 witness: a `numpy.matrix` prediction (a proper `ndarray` subclass)
paired with an `ndarray` target is rejected. -/
theorem check_type_rejects_subclass_witness :
    PyType.npMatrix.isSubclassOfNdarray = true
    ∧ PyType.npMatrix ≠ PyType.ndarray
    ∧ BaseMetric._check_type ⟨.npMatrix, [[7/10, 3/10]]⟩ ⟨.ndarray, [0]⟩
        = .error .typeMismatch :=
  ⟨rfl, by decide,
    check_type_rejects_subclass ⟨.npMatrix, [[7/10, 3/10]]⟩ ⟨.ndarray, [0]⟩
      rfl (by decide)⟩

/-- C9: `_check_pred_sum` is partial on empty batches: when `pred.shape[0]`
is 0 the access `pred[0]` is out of bounds and the call fails with an
`IndexError`, not a `SumViolation`; with `pred.shape[0] ≥ 1` no
`IndexError` occurs. -/
theorem check_pred_sum_empty_indexing (pred : Pred) :
    (pred.shape0 = 0 → BaseMetric._check_pred_sum pred = .error .indexError)
    ∧ (1 ≤ pred.shape0 → BaseMetric._check_pred_sum pred ≠ .error .indexError) := by
  unfold BaseMetric._check_pred_sum Pred.shape0
  cases hrows : pred.rows with
  | nil => exact ⟨fun _ => rfl, fun h => absurd h (by simp)⟩
  | cons row rest =>
    refine ⟨fun h => absurd h (by simp), fun _ => ?_⟩
    by_cases hs : row.sum ≤ 1 <;> simp [hs]

/-- C9 witness: the empty (0, k)-shaped prediction yields `IndexError`,
while a batch of one row does not. -/
theorem check_pred_sum_empty_indexing_witness :
    BaseMetric._check_pred_sum ⟨.ndarray, []⟩ = .error .indexError
    ∧ BaseMetric._check_pred_sum ⟨.ndarray, [[7/10, 3/10]]⟩ ≠ .error .indexError :=
  ⟨(check_pred_sum_empty_indexing ⟨.ndarray, []⟩).1 rfl,
    (check_pred_sum_empty_indexing ⟨.ndarray, [[7/10, 3/10]]⟩).2 (by decide)⟩

/-- C10: `_check_pred_range` never fails on a prediction array with zero
elements: `np.all` holds vacuously, so empty predictions pass range
validation. -/
theorem check_pred_range_empty_ok (pred : Pred) (h : pred.numel = 0) :
    BaseMetric._check_pred_range pred = .ok () := by
  refine (check_pred_range_iff pred).2 ?_
  intro row hrow x hx
  exfalso
  unfold Pred.numel at h
  have hlen : row.length = 0 :=
    List.sum_eq_zero_iff.mp h _ (List.mem_map_of_mem List.length hrow)
  rw [List.length_eq_zero] at hlen
  subst hlen
  exact absurd hx (List.not_mem_nil x)

/-- C10 witness: a (1, 0)-shaped prediction (one row, zero columns) has
zero elements and passes `_check_pred_range`. -/
theorem check_pred_range_empty_ok_witness :
    (Pred.mk .ndarray [[]]).numel = 0
    ∧ BaseMetric._check_pred_range ⟨.ndarray, [[]]⟩ = .ok () :=
  ⟨rfl, check_pred_range_empty_ok ⟨.ndarray, [[]]⟩ rfl⟩

/-- C2: `__call__` is compute, then `update()` with its default count
`n = 1`, then return exactly the value compute produced: when compute
yields value `v` and state `s1`, the call yields `v` alongside the updated
state `update(s1, 1)`; when compute fails, the call fails identically and
`update` never runs. -/
theorem call_eq_compute_then_update (σ V : Type) (m : Variant σ V) (s : σ)
    (pred : Pred) (target : Target) :
    (∀ v s1, m.compute s pred target = .ok (v, s1) →
        m.call s pred target = .ok (v, m.update s1 1))
    ∧ (∀ e, m.compute s pred target = .error e →
        m.call s pred target = .error e) := by
  constructor
  · intro v s1 h
    unfold Variant.call
    rw [h]
  · intro e h
    unfold Variant.call
    rw [h]

/-- C2 witness: on the counting variant in the Fresh state 0 with one valid
batch, compute yields (1, 0), and the call returns that same value 1 with
the state advanced by `update(0, 1)`. -/
theorem call_eq_compute_then_update_witness :
    countVariant.compute 0 ⟨.ndarray, [[7/10, 3/10]]⟩ ⟨.ndarray, [0]⟩ = .ok (1, 0)
    ∧ countVariant.call 0 ⟨.ndarray, [[7/10, 3/10]]⟩ ⟨.ndarray, [0]⟩
        = .ok (1, countVariant.update 0 1) :=
  ⟨rfl, (call_eq_compute_then_update ℕ ℕ countVariant 0
    ⟨.ndarray, [[7/10, 3/10]]⟩ ⟨.ndarray, [0]⟩).1 1 0 rfl⟩

/-- C3: the abstract layer's compute path performs exactly the type check
and the shape-match check: any successful result returns the instance state
unchanged, success happens precisely when `_check_type` and `_check_match`
both pass, and the outcome is independent of the element values of `pred`
(only its runtime type and leading dimension matter), so the range and sum
checks are never invoked by default. -/
theorem compute_checks_exactly (σ : Type) (s : σ) (pred : Pred) (target : Target) :
    (∀ r, BaseMetric.compute σ s pred target = .ok r → r = ((), s))
    ∧ (BaseMetric.compute σ s pred target = .ok ((), s)
        ↔ BaseMetric._check_type pred target = .ok ()
          ∧ BaseMetric._check_match pred target = .ok ())
    ∧ (∀ pred' : Pred, pred'.ty = pred.ty → pred'.shape0 = pred.shape0 →
        BaseMetric.compute σ s pred' target = BaseMetric.compute σ s pred target) := by
  refine ⟨?_, ?_, ?_⟩
  · intro r
    unfold BaseMetric.compute
    cases h1 : BaseMetric._check_type pred target with
    | error e => simp
    | ok u =>
      cases h2 : BaseMetric._check_match pred target with
      | error e => simp
      | ok u' => exact fun h => (Except.ok.inj h).symm
  · unfold BaseMetric.compute
    cases h1 : BaseMetric._check_type pred target with
    | error e => simp
    | ok u =>
      cases u
      cases h2 : BaseMetric._check_match pred target with
      | error e => simp
      | ok u' => cases u'; simp
  · intro pred' hty hsh
    unfold BaseMetric.compute
    rw [show BaseMetric._check_type pred' target
          = BaseMetric._check_type pred target by
        unfold BaseMetric._check_type; rw [hty],
      show BaseMetric._check_match pred' target
          = BaseMetric._check_match pred target by
        unfold BaseMetric._check_match; rw [Pred.shape0] at hsh ⊢; rw [hsh]]

/-- C3 witness: a valid batch passes both default checks and compute
returns with the state 5 unchanged. -/
theorem compute_checks_exactly_witness :
    BaseMetric._check_type ⟨.ndarray, [[7/10, 3/10]]⟩ ⟨.ndarray, [0]⟩ = .ok ()
    ∧ BaseMetric._check_match ⟨.ndarray, [[7/10, 3/10]]⟩ ⟨.ndarray, [0]⟩ = .ok ()
    ∧ BaseMetric.compute ℕ 5 ⟨.ndarray, [[7/10, 3/10]]⟩ ⟨.ndarray, [0]⟩ = .ok ((), 5) :=
  ⟨rfl, rfl, (compute_checks_exactly ℕ 5 ⟨.ndarray, [[7/10, 3/10]]⟩
    ⟨.ndarray, [0]⟩).2.1.mpr ⟨rfl, rfl⟩⟩

/-- C7: `__init__` consists of the single call `self.reset()`, so a freshly
constructed instance is in exactly the state a `reset()` call installs from
any prior state — the Fresh state. -/
theorem construct_is_reset (σ V : Type) (m : Variant σ V) (s : σ) :
    m.construct = m.doReset s ∧ m.construct = m.reset :=
  ⟨rfl, rfl⟩

end Volkscv
